import Mathlib

/-
  Verification development for the claude-agent session manager
  (deployments/claude-agent/src/agent_manager.py).

  The Python code is shallowly embedded: the session dictionary becomes an
  association list preserving insertion order, timestamps become integers,
  the Anthropic client becomes an oracle parameter giving the outcome of
  each provider call, and the tenacity retry decorator
  (stop_after_attempt(3), default retry-on-any-exception, default
  reraise=False so exhaustion raises RetryError wrapping the last attempt)
  becomes an explicit bounded loop.
-/

/-- Per-call usage report, mirroring the usage dict built in
process_request and stream_response: input_tokens, output_tokens,
total_tokens. -/
structure UsageReport where
  input_tokens : Int
  output_tokens : Int
  total_tokens : Int
deriving DecidableEq, Repr

/-- Cumulative token usage of a session, mirroring
AgentSession.token_usage with keys input, output, total. -/
structure TokenUsage where
  input : Int
  output : Int
  total : Int
deriving DecidableEq, Repr

/-- One entry of AgentSession.message_history: a role/content dict. -/
structure ChatMessage where
  role : String
  content : String
deriving DecidableEq, Repr

/-- AgentSession: per-conversation state (agent_manager.py lines 20-49). -/
structure AgentSession where
  session_id : String
  user_id : String
  system_prompt : Option String
  created_at : Int
  last_activity : Int
  message_history : List ChatMessage
  token_usage : TokenUsage
deriving DecidableEq, Repr

/-- AgentSession.__init__: fresh session at time now with empty history and
zero usage. -/
def AgentSession.init (session_id user_id : String) (system_prompt : Option String)
    (now : Int) : AgentSession :=
  { session_id := session_id,
    user_id := user_id,
    system_prompt := system_prompt,
    created_at := now,
    last_activity := now,
    message_history := [],
    token_usage := { input := 0, output := 0, total := 0 } }

/-- AgentSession.update_activity: set last_activity to the current time. -/
def AgentSession.update_activity (s : AgentSession) (now : Int) : AgentSession :=
  { s with last_activity := now }

/-- AgentSession.add_message: append a role/content dict to
message_history, then update_activity. -/
def AgentSession.add_message (s : AgentSession) (role content : String)
    (now : Int) : AgentSession :=
  ({ s with message_history := s.message_history ++ [ChatMessage.mk role content]
   }).update_activity now

/-- AgentSession.update_token_usage: input += usage.input_tokens,
output += usage.output_tokens, total recomputed as input + output. -/
def AgentSession.update_token_usage (s : AgentSession) (usage : UsageReport) :
    AgentSession :=
  let input := s.token_usage.input + usage.input_tokens
  let output := s.token_usage.output + usage.output_tokens
  { s with token_usage := { input := input, output := output, total := input + output } }

/-- AgentSession.is_expired: (now - last_activity) > timeout, strict. -/
def AgentSession.is_expired (s : AgentSession) (timeout : Int) (now : Int) : Bool :=
  (now - s.last_activity) > timeout

/-- Python dict lookup (self.sessions.get(session_id)) on the
insertion-ordered association list. -/
def dictGet (d : List (String × AgentSession)) (k : String) : Option AgentSession :=
  match d with
  | [] => none
  | (k1, v) :: rest => if k1 = k then some v else dictGet rest k

/-- Python dict assignment: replace the value at an existing key in place,
else append at the end (dicts preserve insertion order). -/
def dictInsert (d : List (String × AgentSession)) (k : String) (v : AgentSession) :
    List (String × AgentSession) :=
  match d with
  | [] => [(k, v)]
  | (k1, v1) :: rest => if k1 = k then (k, v) :: rest else (k1, v1) :: dictInsert rest k v

/-- Lookup in the errors defaultdict(int): missing keys count as 0. -/
def errorCount (errors : List (String × Nat)) (k : String) : Nat :=
  match errors with
  | [] => 0
  | (k1, n) :: rest => if k1 = k then n else errorCount rest k

/-- self.stats["errors"][name] += 1 on the defaultdict(int). -/
def bumpError (errors : List (String × Nat)) (k : String) : List (String × Nat) :=
  match errors with
  | [] => [(k, 1)]
  | (k1, n) :: rest => if k1 = k then (k1, n + 1) :: rest else (k1, n) :: bumpError rest k

/-- The self.stats dict of AgentManager (lines 68-74); the errors
defaultdict is an association list, absent keys reading as 0. -/
structure Stats where
  total_requests : Nat
  total_tokens : Int
  total_sessions : Nat
  active_sessions : Nat
  errors : List (String × Nat)
deriving DecidableEq, Repr

/-- AgentManager state: the sessions dict, the capacity bound, the idle
timeout and the stats counters. -/
structure AgentManager where
  sessions : List (String × AgentSession)
  max_concurrent_sessions : Nat
  session_timeout : Int
  stats : Stats
deriving DecidableEq, Repr

/-- AgentManager.__init__ (the parts relevant to the claims): empty
sessions dict, zeroed stats. -/
def AgentManager.init (maxSessions : Nat) (timeout : Int) : AgentManager :=
  { sessions := [],
    max_concurrent_sessions := maxSessions,
    session_timeout := timeout,
    stats := { total_requests := 0, total_tokens := 0, total_sessions := 0,
               active_sessions := 0, errors := [] } }

/-- An error raised by the provider call: Python exception class name
(used as the key into stats["errors"]) and message. -/
structure ProviderError where
  name : String
  msg : String
deriving DecidableEq, Repr

/-- The exceptions raised by AgentManager methods themselves, plus
propagated provider errors. The code raises bare Exception objects; the
constructors record which raise site fired and the data in its message. -/
inductive AgentError where
  | capacityExceeded (limit : Nat)
  | sessionNotFound (session_id : String)
  | upstream (e : ProviderError)
deriving DecidableEq, Repr

/-- What the decorated process_request ultimately raises: tenacity with
default reraise=False raises RetryError wrapping the last attempt once
stop_after_attempt(3) is reached. -/
inductive FinalError where
  | retryError (last : AgentError)
deriving DecidableEq, Repr

/-- One block of response.content; text is present only when the block
has a text attribute (hasattr(block, 'text')). -/
structure ContentBlock where
  text : Option String
deriving DecidableEq, Repr

/-- response.usage of a provider completion. -/
structure ProviderUsage where
  input_tokens : Int
  output_tokens : Int
deriving DecidableEq, Repr

/-- A successful provider completion: content blocks plus usage. -/
structure ProviderResponse where
  content : List ContentBlock
  usage : ProviderUsage
deriving DecidableEq, Repr

/-- The content-extraction loop of process_request: concatenate the text
of every block that has one, skipping the rest. -/
def extract_content (blocks : List ContentBlock) : String :=
  match blocks with
  | [] => ""
  | b :: rest =>
    (match b.text with
     | some t => t
     | none => "") ++ extract_content rest

/-- The request object handed to process_request / stream_response. -/
structure AgentRequest where
  prompt : String
  max_tokens : Nat
  temperature : Int
  system_prompt : Option String
  tools : List String
deriving DecidableEq, Repr

/-- The dict returned by a successful process_request. -/
structure ProcessResult where
  content : String
  usage : UsageReport
  message_count : Nat
deriving DecidableEq, Repr

/-- _cleanup_expired_sessions_sync (lines 226-240): collect the expired
session ids, delete them from the dict, and refresh active_sessions only
when something was removed.  The Python function has no return statement,
so it returns None: the Option Nat component of the result models that
return value and is always none. -/
def cleanup_expired_sessions_sync (m : AgentManager) (now : Int) :
    AgentManager × Option Nat :=
  let remaining := m.sessions.filter (fun p => !(p.2.is_expired m.session_timeout now))
  let removed_any := m.sessions.any (fun p => p.2.is_expired m.session_timeout now)
  let stats1 :=
    if removed_any then { m.stats with active_sessions := remaining.length }
    else m.stats
  ({ m with sessions := remaining, stats := stats1 }, none)

/-- The insertion tail of create_session: allocate the session under the
fresh id, bump total_sessions, refresh active_sessions, return the id. -/
def create_session_insert (m : AgentManager) (user_id : String)
    (system_prompt : Option String) (new_id : String) (now : Int) :
    AgentManager × Except AgentError String :=
  let session := AgentSession.init new_id user_id system_prompt now
  let sessions1 := dictInsert m.sessions new_id session
  ({ m with
     sessions := sessions1,
     stats := { m.stats with
       total_sessions := m.stats.total_sessions + 1,
       active_sessions := sessions1.length } }, .ok new_id)

/-- create_session (lines 83-106): under the session lock, if the store is
full run one inline cleanup pass; if still full raise the capacity error
carrying the limit; otherwise insert a fresh session.  new_id stands for
the generated uuid4, now for time.time(). -/
def create_session (m : AgentManager) (user_id : String)
    (system_prompt : Option String) (new_id : String) (now : Int) :
    AgentManager × Except AgentError String :=
  if m.sessions.length ≥ m.max_concurrent_sessions then
    let m1 := (cleanup_expired_sessions_sync m now).1
    if m1.sessions.length ≥ m1.max_concurrent_sessions then
      (m1, .error (.capacityExceeded m1.max_concurrent_sessions))
    else
      create_session_insert m1 user_id system_prompt new_id now
  else
    create_session_insert m user_id system_prompt new_id now

/-- delete_session (lines 218-224): idempotent removal; refresh
active_sessions only when the id was present. -/
def delete_session (m : AgentManager) (session_id : String) : AgentManager :=
  match dictGet m.sessions session_id with
  | none => m
  | some _ =>
    let sessions1 := m.sessions.filter (fun p => p.1 != session_id)
    { m with
      sessions := sessions1,
      stats := { m.stats with active_sessions := sessions1.length } }

/-- One undecorated run of the process_request body (lines 109-172):
look up the session (raising the not-found error before the try block, so
without touching the errors counter), append the user message, call the
provider; on success append the assistant message, fold usage into the
session and the global stats and return the result dict; on any exception
inside the try block bump stats["errors"] by the exception class name and
re-raise.  provider is the outcome of this attempt's API call, now this
attempt's time.time(). -/
def process_request_once (m : AgentManager) (session_id : String)
    (req : AgentRequest) (provider : Except ProviderError ProviderResponse)
    (now : Int) : AgentManager × Except AgentError ProcessResult :=
  match dictGet m.sessions session_id with
  | none => (m, .error (.sessionNotFound session_id))
  | some session =>
    let session1 := session.add_message "user" req.prompt now
    let m1 := { m with sessions := dictInsert m.sessions session_id session1 }
    match provider with
    | .error e =>
      ({ m1 with stats := { m1.stats with errors := bumpError m1.stats.errors e.name } },
       .error (.upstream e))
    | .ok resp =>
      let content := extract_content resp.content
      let session2 := session1.add_message "assistant" content now
      let usage : UsageReport :=
        { input_tokens := resp.usage.input_tokens,
          output_tokens := resp.usage.output_tokens,
          total_tokens := resp.usage.input_tokens + resp.usage.output_tokens }
      let session3 := session2.update_token_usage usage
      let m2 := { m1 with sessions := dictInsert m1.sessions session_id session3 }
      ({ m2 with stats := { m2.stats with
           total_requests := m2.stats.total_requests + 1,
           total_tokens := m2.stats.total_tokens + usage.total_tokens } },
       .ok { content := content, usage := usage,
             message_count := session3.message_history.length })

/-- The tenacity retry loop around process_request: run an attempt; return
on success; on an exception retry while attempts remain, else raise
RetryError wrapping the last exception (default reraise=False).  attempt
is the 0-based index of the next attempt, fuel the attempts remaining out
of stop_after_attempt(3); the returned Nat counts the attempts actually
run.  The fuel-0 base case is unreachable from process_request, which
always starts with fuel 3. -/
def process_request_attempts (session_id : String) (req : AgentRequest)
    (provider : Nat → Except ProviderError ProviderResponse)
    (attempt_time : Nat → Int) :
    Nat → Nat → AgentManager → AgentManager × Nat × Except FinalError ProcessResult
  | attempt, 0, m => (m, attempt, .error (.retryError (.sessionNotFound session_id)))
  | attempt, fuel + 1, m =>
    let r := process_request_once m session_id req (provider attempt) (attempt_time attempt)
    match r.2 with
    | .ok v => (r.1, attempt + 1, .ok v)
    | .error e =>
      match fuel with
      | 0 => (r.1, attempt + 1, .error (.retryError e))
      | fuel1 + 1 =>
        process_request_attempts session_id req provider attempt_time
          (attempt + 1) (fuel1 + 1) r.1

/-- process_request as decorated with
retry(stop=stop_after_attempt(3), wait=wait_exponential(...)): up to 3
attempts of the body, every exception retried, exhaustion surfacing
RetryError around the last attempt's exception.  provider i / attempt_time
i give the provider outcome and clock reading of attempt i. -/
def process_request (m : AgentManager) (session_id : String) (req : AgentRequest)
    (provider : Nat → Except ProviderError ProviderResponse)
    (attempt_time : Nat → Int) :
    AgentManager × Nat × Except FinalError ProcessResult :=
  process_request_attempts session_id req provider attempt_time 0 3 m

/-- The outcome of the provider's streaming call: either the full fragment
sequence with the final usage report, or a failure after some fragments. -/
inductive StreamOutcome where
  | completed (fragments : List String) (final_usage : ProviderUsage)
  | failed (received : List String) (e : ProviderError)
deriving DecidableEq, Repr

/-- A fragment event: yield f"data: \x7btext\x7d\n\n". -/
def sse_data (text : String) : String := "data: " ++ text ++ "\n\n"

/-- The terminal completion sentinel: yield f"data: [DONE]\n\n". -/
def sse_done : String := "data: [DONE]\n\n"

/-- The structured error event of the except block:
yield f"data: \x7b\x7b\"error\": \"\x7bstr(e)\x7d\"\x7d\x7d\n\n". -/
def sse_error (msg : String) : String :=
  "data: \x7b\"error\": \"" ++ msg ++ "\"\x7d\n\n"

/-- accumulated_content: the running concatenation of the fragments. -/
def concat_fragments (l : List String) : String :=
  match l with
  | [] => ""
  | f :: rest => f ++ concat_fragments rest

/-- stream_response (lines 174-216): look up the session (not-found raised
before the try block), append the user message eagerly, then replay the
provider stream.  On completion: yield each fragment, append the
accumulated text as one assistant message, fold the final usage into the
session, yield the [DONE] sentinel.  Global stats are not touched on this
path.  On a mid-stream exception: the fragments received so far were
already yielded, stats["errors"] is bumped by the exception class name,
and exactly one error event is yielded in place of the sentinel, after
which the generator stops.  The returned list is the sequence of yielded
strings in emission order. -/
def stream_response (m : AgentManager) (session_id : String) (req : AgentRequest)
    (outcome : StreamOutcome) (now : Int) :
    AgentManager × Except AgentError (List String) :=
  match dictGet m.sessions session_id with
  | none => (m, .error (.sessionNotFound session_id))
  | some session =>
    let session1 := session.add_message "user" req.prompt now
    let m1 := { m with sessions := dictInsert m.sessions session_id session1 }
    match outcome with
    | .completed fragments final_usage =>
      let accumulated := concat_fragments fragments
      let session2 := session1.add_message "assistant" accumulated now
      let usage : UsageReport :=
        { input_tokens := final_usage.input_tokens,
          output_tokens := final_usage.output_tokens,
          total_tokens := final_usage.input_tokens + final_usage.output_tokens }
      let session3 := session2.update_token_usage usage
      let m2 := { m1 with sessions := dictInsert m1.sessions session_id session3 }
      (m2, .ok ((fragments.map sse_data) ++ [sse_done]))
    | .failed received e =>
      let m2 := { m1 with stats := { m1.stats with errors := bumpError m1.stats.errors e.name } }
      (m2, .ok ((received.map sse_data) ++ [sse_error e.msg]))

/-- The message history of the stored session under an id, when present. -/
def session_messages (m : AgentManager) (sid : String) : Option (List ChatMessage) :=
  match dictGet m.sessions sid with
  | none => none
  | some s => some s.message_history

/-- The cumulative usage of the stored session under an id, when present. -/
def session_usage (m : AgentManager) (sid : String) : Option TokenUsage :=
  match dictGet m.sessions sid with
  | none => none
  | some s => some s.token_usage

/-- The last_activity timestamp of the stored session under an id. -/
def session_last_activity (m : AgentManager) (sid : String) : Option Int :=
  match dictGet m.sessions sid with
  | none => none
  | some s => some s.last_activity

deriving instance DecidableEq for Except

/-- Looking up the key just written returns the written session. -/
theorem dictGet_dictInsert_self (d : List (String × AgentSession)) (k : String)
    (v : AgentSession) : dictGet (dictInsert d k v) k = some v := by
  induction d with
  | nil => simp [dictInsert, dictGet]
  | cons p rest ih =>
    obtain ⟨k1, v1⟩ := p
    by_cases h : k1 = k <;> simp [dictInsert, dictGet, h, ih]

/-- A dict assignment grows the dict by at most one entry. -/
theorem dictInsert_length_le (d : List (String × AgentSession)) (k : String)
    (v : AgentSession) : (dictInsert d k v).length ≤ d.length + 1 := by
  induction d with
  | nil => simp [dictInsert]
  | cons p rest ih =>
    obtain ⟨k1, v1⟩ := p
    by_cases h : k1 = k <;> simp [dictInsert, h] <;> omega

/-- Bumping a key of the errors defaultdict increments its count by one. -/
theorem errorCount_bumpError_self (l : List (String × Nat)) (k : String) :
    errorCount (bumpError l k) k = errorCount l k + 1 := by
  induction l with
  | nil => simp [bumpError, errorCount]
  | cons p rest ih =>
    obtain ⟨k1, n⟩ := p
    by_cases h : k1 = k <;> simp [bumpError, errorCount, h, ih]

/-- The cleanup pass does not change the capacity bound or the timeout. -/
theorem cleanup_preserves_config (m : AgentManager) (now : Int) :
    (cleanup_expired_sessions_sync m now).1.max_concurrent_sessions
      = m.max_concurrent_sessions ∧
    (cleanup_expired_sessions_sync m now).1.session_timeout = m.session_timeout :=
  ⟨rfl, rfl⟩

/-- A stored last_activity value comes with the stored session. -/
theorem session_last_activity_some (m : AgentManager) (sid : String) (t : Int)
    (h : session_last_activity m sid = some t) :
    ∃ s, dictGet m.sessions sid = some s ∧ s.last_activity = t := by
  unfold session_last_activity at h
  cases hh : dictGet m.sessions sid with
  | none => rw [hh] at h; exact absurd h (by simp)
  | some s => rw [hh] at h; exact ⟨s, rfl, by simpa using h⟩

/-- A fixed request value used by the concrete scenarios. -/
def req0 : AgentRequest :=
  { prompt := "Hello", max_tokens := 100, temperature := 1
    system_prompt := none, tools := [] }

/-- A fresh manager with capacity 10 and a 300 second timeout. -/
def m0 : AgentManager := AgentManager.init 10 300

/-- m0 after creating one session under id S at time 0. -/
def mS : AgentManager := (create_session m0 "user-1" none "S" 0).1

/-- A transient provider error, its Python class name APIError. -/
def apiErr : ProviderError := { name := "APIError", msg := "rate limited" }

/-- A successful provider completion used by the concrete scenarios. -/
def respOK : ProviderResponse :=
  { content := [{ text := some "Hello! How can I help?" }]
    usage := { input_tokens := 10, output_tokens := 20 } }

/-- A manager holding exactly one session, idle since time 0. -/
def mE : AgentManager :=
  { AgentManager.init 10 300 with
    sessions := [("E", AgentSession.init "E" "user-e" none 0)] }

/-- Claim C2: after every usage update the session's usage satisfies
total = input + output, the total is recomputed from input and output
(message appends and activity refreshes never touch usage, a fresh
session starts at zero), and with non-negative reported token counts the
input, output and total are monotonically non-decreasing. -/
theorem update_token_usage_invariant (sid uid role content : String)
    (sp : Option String) (now : Int) (s : AgentSession) (u : UsageReport) :
    (AgentSession.init sid uid sp now).token_usage
      = { input := 0, output := 0, total := 0 } ∧
    (s.add_message role content now).token_usage = s.token_usage ∧
    (s.update_activity now).token_usage = s.token_usage ∧
    (s.update_token_usage u).token_usage.total =
      (s.update_token_usage u).token_usage.input +
      (s.update_token_usage u).token_usage.output ∧
    (0 ≤ u.input_tokens → 0 ≤ u.output_tokens →
      s.token_usage.input ≤ (s.update_token_usage u).token_usage.input ∧
      s.token_usage.output ≤ (s.update_token_usage u).token_usage.output ∧
      s.token_usage.input + s.token_usage.output
        ≤ (s.update_token_usage u).token_usage.total) := by
  refine ⟨rfl, rfl, rfl, rfl, ?_⟩
  intro h1 h2
  simp only [AgentSession.update_token_usage]
  refine ⟨by omega, by omega, by omega⟩

/-- Witness for C2: the invariant applied to a fresh session receiving a
report of 10 input and 20 output tokens. -/
theorem update_token_usage_invariant_witness :
    (0 : Int) ≤ 10 ∧ (0 : Int) ≤ 20 ∧
    ((AgentSession.init "S" "u" none 0).update_token_usage
        { input_tokens := 10, output_tokens := 20, total_tokens := 30 }).token_usage.total =
      ((AgentSession.init "S" "u" none 0).update_token_usage
        { input_tokens := 10, output_tokens := 20, total_tokens := 30 }).token_usage.input +
      ((AgentSession.init "S" "u" none 0).update_token_usage
        { input_tokens := 10, output_tokens := 20, total_tokens := 30 }).token_usage.output ∧
    (AgentSession.init "S" "u" none 0).token_usage.input +
        (AgentSession.init "S" "u" none 0).token_usage.output
      ≤ ((AgentSession.init "S" "u" none 0).update_token_usage
        { input_tokens := 10, output_tokens := 20, total_tokens := 30 }).token_usage.total := by
  have h := update_token_usage_invariant "S" "u" "user" "Hello" none 0
    (AgentSession.init "S" "u" none 0)
    { input_tokens := 10, output_tokens := 20, total_tokens := 30 }
  exact ⟨by decide, by decide, h.2.2.2.1,
    (h.2.2.2.2 (by decide) (by decide)).2.2⟩

/-- Claim C3 (code bug in the repository): process_request with an unknown
session id does not fail after a single lookup.  The tenacity decorator
wraps the whole body and by default retries every exception, so the
not-found failure is retried: three lookup attempts run, separated by
exponential backoff sleeps, and the caller finally receives RetryError
wrapping the not-found error rather than the error itself; the store and
its stats are left unchanged (the raise happens before the try block, so
not even the error counter moves).  The repository's own test
test_process_request_session_not_found expects the Session-not-found
message to surface immediately, which this behaviour defeats. -/
theorem process_request_notfound_retried :
    (process_request m0 "invalid-session" req0 (fun _ => .error apiErr) (fun _ => 0)).2.1
      = 3 ∧
    (process_request m0 "invalid-session" req0 (fun _ => .error apiErr) (fun _ => 0)).2.2
      = .error (.retryError (.sessionNotFound "invalid-session")) ∧
    (process_request m0 "invalid-session" req0 (fun _ => .error apiErr) (fun _ => 0)).1
      = m0 := by
  decide

/-- Claim C8 counterexample: on a store holding one session idle for 1000
seconds against a 300 second timeout, the reap pass removes the session
but its return value is None (the Python function has no return
statement), not the removed count 1 that the claim asserts. -/
theorem reap_return_counterexample :
    (cleanup_expired_sessions_sync mE 1000).1.sessions = [] ∧
    (cleanup_expired_sessions_sync mE 1000).2 = none ∧
    ¬ (cleanup_expired_sessions_sync mE 1000).2 = some 1 := by
  decide

/-- Claim C8 as amended: one reap pass removes exactly those sessions
whose idle time strictly exceeds the timeout — an entry idle longer than
the timeout is absent afterwards, one idle for at most the timeout is
retained unchanged, nothing is added — but the pass returns None rather
than the count of sessions removed. -/
theorem reap_removes_expired (m : AgentManager) (now : Int) (sid : String)
    (s : AgentSession) :
    ((sid, s) ∈ m.sessions → now - s.last_activity > m.session_timeout →
      (sid, s) ∉ (cleanup_expired_sessions_sync m now).1.sessions) ∧
    ((sid, s) ∈ m.sessions → now - s.last_activity ≤ m.session_timeout →
      (sid, s) ∈ (cleanup_expired_sessions_sync m now).1.sessions) ∧
    (∀ p ∈ (cleanup_expired_sessions_sync m now).1.sessions, p ∈ m.sessions) ∧
    (cleanup_expired_sessions_sync m now).2 = none := by
  have hsess : (cleanup_expired_sessions_sync m now).1.sessions
      = m.sessions.filter (fun p => !(p.2.is_expired m.session_timeout now)) := rfl
  refine ⟨?_, ?_, ?_, rfl⟩
  · intro hmem hexp hin
    rw [hsess] at hin
    have h2 := (List.mem_filter.mp hin).2
    simp only [AgentSession.is_expired, Bool.not_eq_true', decide_eq_false_iff_not,
      not_lt] at h2
    omega
  · intro hmem hle
    rw [hsess]
    refine List.mem_filter.mpr ⟨hmem, ?_⟩
    simp only [AgentSession.is_expired, Bool.not_eq_true', decide_eq_false_iff_not,
      not_lt]
    omega
  · intro p hp
    rw [hsess] at hp
    exact List.mem_of_mem_filter hp

/-- Witness for C8 as amended: the expired session of mE is gone after the
pass, a fresh one would be retained, and the pass returns None. -/
theorem reap_removes_expired_witness :
    ("E", AgentSession.init "E" "user-e" none 0) ∈ mE.sessions ∧
    ((1000 : Int) - (AgentSession.init "E" "user-e" none 0).last_activity
      > mE.session_timeout) ∧
    ("E", AgentSession.init "E" "user-e" none 0)
      ∉ (cleanup_expired_sessions_sync mE 1000).1.sessions ∧
    (cleanup_expired_sessions_sync mE 1000).2 = none := by
  have h := reap_removes_expired mE 1000 "E" (AgentSession.init "E" "user-e" none 0)
  exact ⟨by decide, by decide, h.1 (by decide) (by decide), h.2.2.2⟩

/-- The insertion tail leaves exactly one dict assignment behind. -/
theorem create_session_insert_sessions (m : AgentManager) (uid : String)
    (sp : Option String) (nid : String) (now : Int) :
    (create_session_insert m uid sp nid now).1.sessions
      = dictInsert m.sessions nid (AgentSession.init nid uid sp now) := rfl

/-- The manager created for the capacity-2 scenario, already holding the
sessions A and B created at time 0. -/
def mAB : AgentManager :=
  (create_session
    ((create_session (AgentManager.init 2 300) "userA" none "A" 0).1)
    "userB" none "B" 0).1

/-- Claim C1: after every successful create the store holds at most
capacity-many sessions; a create invoked on a full store first runs one
inline reap pass and, if the store is still full, fails with the capacity
error carrying the limit, leaving the state exactly as the reap pass left
it; and in the capacity-2 scenario, after creating A and B a third create
fails with the capacity error and, after deleting A, succeeds. -/
theorem create_session_bounded (m : AgentManager) (uid : String)
    (sp : Option String) (nid : String) (now : Int) :
    (∀ sid, (create_session m uid sp nid now).2 = .ok sid →
      (create_session m uid sp nid now).1.sessions.length
        ≤ m.max_concurrent_sessions) ∧
    (m.sessions.length ≥ m.max_concurrent_sessions →
      (cleanup_expired_sessions_sync m now).1.sessions.length
          ≥ m.max_concurrent_sessions →
      create_session m uid sp nid now =
        ((cleanup_expired_sessions_sync m now).1,
         .error (.capacityExceeded m.max_concurrent_sessions))) ∧
    ((create_session (AgentManager.init 2 300) "userA" none "A" 0).2 = .ok "A" ∧
     (create_session
        ((create_session (AgentManager.init 2 300) "userA" none "A" 0).1)
        "userB" none "B" 0).2 = .ok "B" ∧
     (create_session mAB "userC" none "C" 0).2 = .error (.capacityExceeded 2) ∧
     (create_session (delete_session (create_session mAB "userC" none "C" 0).1 "A")
        "userC" none "C" 0).2 = .ok "C") := by
  refine ⟨?_, ?_, by decide⟩
  · intro sid h
    unfold create_session at h ⊢
    by_cases h1 : m.sessions.length ≥ m.max_concurrent_sessions
    · rw [if_pos h1] at h ⊢
      by_cases h2 : (cleanup_expired_sessions_sync m now).1.sessions.length
          ≥ (cleanup_expired_sessions_sync m now).1.max_concurrent_sessions
      · rw [if_pos h2] at h
        exact absurd h (by simp)
      · rw [if_neg h2] at h ⊢
        rw [create_session_insert_sessions]
        have hmax : (cleanup_expired_sessions_sync m now).1.max_concurrent_sessions
            = m.max_concurrent_sessions := rfl
        rw [hmax] at h2
        have hlen := dictInsert_length_le
          (cleanup_expired_sessions_sync m now).1.sessions nid
          (AgentSession.init nid uid sp now)
        omega
    · rw [if_neg h1] at h ⊢
      rw [create_session_insert_sessions]
      have hlen := dictInsert_length_le m.sessions nid (AgentSession.init nid uid sp now)
      omega
  · intro h1 h2
    have h2a : (cleanup_expired_sessions_sync m now).1.sessions.length
        ≥ (cleanup_expired_sessions_sync m now).1.max_concurrent_sessions := h2
    unfold create_session
    rw [if_pos h1, if_pos h2a]
    rfl

/-- Witness for C1: the universal part applied to the concrete capacity-2
scenario (full store: the third create fails with the limit) and to a
fresh store (successful create stays within capacity). -/
theorem create_session_bounded_witness :
    mAB.sessions.length ≥ mAB.max_concurrent_sessions ∧
    (cleanup_expired_sessions_sync mAB 0).1.sessions.length
      ≥ mAB.max_concurrent_sessions ∧
    create_session mAB "userC" none "C" 0 =
      ((cleanup_expired_sessions_sync mAB 0).1,
       .error (.capacityExceeded mAB.max_concurrent_sessions)) ∧
    (create_session m0 "user-1" none "S" 0).2 = .ok "S" ∧
    (create_session m0 "user-1" none "S" 0).1.sessions.length
      ≤ m0.max_concurrent_sessions := by
  have h := create_session_bounded mAB "userC" none "C" 0
  have h0 := create_session_bounded m0 "user-1" none "S" 0
  exact ⟨by decide, by decide, h.2.1 (by decide) (by decide),
    by decide, h0.1 "S" (by decide)⟩

/-- Claim C4 counterexample: with session S present and the provider
failing with APIError on all three attempts, the APIError counter ends at
3, not 1 — the except block inside the retried body runs once per attempt
— and the caller receives RetryError wrapping the last error rather than
the error verbatim. -/
theorem retry_counter_counterexample :
    errorCount
      (process_request mS "S" req0 (fun _ => .error apiErr) (fun _ => 1)).1.stats.errors
      "APIError" = 3 ∧
    ¬ errorCount
      (process_request mS "S" req0 (fun _ => .error apiErr) (fun _ => 1)).1.stats.errors
      "APIError" = 1 ∧
    (process_request mS "S" req0 (fun _ => .error apiErr) (fun _ => 1)).2.2
      = .error (.retryError (.upstream apiErr)) := by
  decide

/-- Claim C4 as amended: when the provider fails on all 3 attempts of
process_request, the caller receives tenacity's RetryError wrapping the
final (last-attempt) error, and the per-error-kind counter keyed by the
errors' shared classification is incremented once per failed attempt —
three times for the exhausted call. -/
theorem retry_exhaustion_behaviour (m : AgentManager) (sid : String)
    (req : AgentRequest) (e0 e1 e2 : ProviderError)
    (t : Nat → Int) (s : AgentSession)
    (hs : dictGet m.sessions sid = some s)
    (h0 : e0.name = e2.name) (h1 : e1.name = e2.name) :
    (process_request m sid req
        (fun i => if i = 0 then .error e0 else if i = 1 then .error e1 else .error e2)
        t).2.2 = .error (.retryError (.upstream e2)) ∧
    (process_request m sid req
        (fun i => if i = 0 then .error e0 else if i = 1 then .error e1 else .error e2)
        t).2.1 = 3 ∧
    errorCount (process_request m sid req
        (fun i => if i = 0 then .error e0 else if i = 1 then .error e1 else .error e2)
        t).1.stats.errors e2.name
      = errorCount m.stats.errors e2.name + 3 := by
  simp [process_request, process_request_attempts, process_request_once, hs, h0, h1,
    dictGet_dictInsert_self, errorCount_bumpError_self]

/-- Witness for C4 as amended: the exhausted-retry behaviour at the
concrete one-session store, all three attempts failing with APIError. -/
theorem retry_exhaustion_behaviour_witness :
    dictGet mS.sessions "S" = some (AgentSession.init "S" "user-1" none 0) ∧
    apiErr.name = apiErr.name ∧
    (process_request mS "S" req0
        (fun i => if i = 0 then .error apiErr else if i = 1 then .error apiErr
                  else .error apiErr)
        (fun _ => 1)).2.2 = .error (.retryError (.upstream apiErr)) ∧
    errorCount (process_request mS "S" req0
        (fun i => if i = 0 then .error apiErr else if i = 1 then .error apiErr
                  else .error apiErr)
        (fun _ => 1)).1.stats.errors apiErr.name
      = errorCount mS.stats.errors apiErr.name + 3 := by
  have h := retry_exhaustion_behaviour mS "S" req0 apiErr apiErr apiErr (fun _ => 1)
    (AgentSession.init "S" "user-1" none 0) (by decide) rfl rfl
  exact ⟨by decide, rfl, h.1, h.2.2⟩

/-- Claim C5 counterexample: starting from a fresh session, two
consecutive process_request calls whose provider fails on all 3 attempts
leave a message history of six identical user messages — an even length,
refuting the claim that the resulting history length is always odd (each
exhausted call appends three user copies, one per retry attempt). -/
theorem failed_call_parity_counterexample :
    session_messages
      (process_request
        (process_request mS "S" req0 (fun _ => .error apiErr) (fun _ => 1)).1
        "S" req0 (fun _ => .error apiErr) (fun _ => 2)).1 "S"
      = some (List.replicate 6 (ChatMessage.mk "user" "Hello")) ∧
    ¬ (6 % 2 = 1) := by
  decide

/-- Claim C5 as amended: a process_request call against an existing
session whose provider fails on all 3 attempts leaves the session in the
store with exactly three copies of the user message appended (one per
retry attempt) and no assistant reply, its usage untouched; the global
request and token counters are unchanged; the caller receives RetryError
around the upstream error; and the history length grows by 3, so it is
odd whenever the pre-call length was even (a balanced history), not in
general. -/
theorem failed_call_session_state (m : AgentManager) (sid : String)
    (req : AgentRequest) (e : ProviderError) (t : Nat → Int) (s : AgentSession)
    (hs : dictGet m.sessions sid = some s) :
    session_messages (process_request m sid req (fun _ => .error e) t).1 sid
      = some (s.message_history ++
          [ChatMessage.mk "user" req.prompt, ChatMessage.mk "user" req.prompt,
           ChatMessage.mk "user" req.prompt]) ∧
    session_usage (process_request m sid req (fun _ => .error e) t).1 sid
      = some s.token_usage ∧
    (process_request m sid req (fun _ => .error e) t).1.stats.total_requests
      = m.stats.total_requests ∧
    (process_request m sid req (fun _ => .error e) t).1.stats.total_tokens
      = m.stats.total_tokens ∧
    (process_request m sid req (fun _ => .error e) t).2.2
      = .error (.retryError (.upstream e)) ∧
    (s.message_history.length % 2 = 0 →
      (s.message_history.length + 3) % 2 = 1) := by
  refine ⟨?_, ?_, ?_, ?_, ?_, by omega⟩ <;>
    simp [process_request, process_request_attempts, process_request_once, hs,
      dictGet_dictInsert_self, session_messages, session_usage,
      AgentSession.add_message, AgentSession.update_activity]

/-- Witness for C5 as amended: one exhausted call on the fresh session S
leaves three unanswered user messages and untouched counters. -/
theorem failed_call_session_state_witness :
    dictGet mS.sessions "S" = some (AgentSession.init "S" "user-1" none 0) ∧
    session_messages
      (process_request mS "S" req0 (fun _ => .error apiErr) (fun _ => 1)).1 "S"
      = some ((AgentSession.init "S" "user-1" none 0).message_history ++
          [ChatMessage.mk "user" req0.prompt, ChatMessage.mk "user" req0.prompt,
           ChatMessage.mk "user" req0.prompt]) ∧
    (process_request mS "S" req0 (fun _ => .error apiErr) (fun _ => 1)).1.stats.total_requests
      = mS.stats.total_requests := by
  have h := failed_call_session_state mS "S" req0 apiErr (fun _ => 1)
    (AgentSession.init "S" "user-1" none 0) (by decide)
  exact ⟨by decide, h.1, h.2.2.1⟩

/-- Claim C9: because the tenacity decorator re-runs the whole body, a
process_request that succeeds after k failed transient attempts
(k = 1 or 2) appends k + 1 identical copies of the user message followed
by a single assistant message, runs k + 1 attempts, and returns the
extracted content with a message count reflecting the duplicated user
turns. -/
theorem retry_reappends_user_message (m : AgentManager) (sid : String)
    (req : AgentRequest) (e : ProviderError) (resp : ProviderResponse)
    (t : Nat → Int) (s : AgentSession) (k : Nat)
    (hs : dictGet m.sessions sid = some s) (hk : k = 1 ∨ k = 2) :
    session_messages
        (process_request m sid req (fun i => if i < k then .error e else .ok resp) t).1 sid
      = some (s.message_history
          ++ List.replicate (k + 1) (ChatMessage.mk "user" req.prompt)
          ++ [ChatMessage.mk "assistant" (extract_content resp.content)]) ∧
    (process_request m sid req (fun i => if i < k then .error e else .ok resp) t).2.1
      = k + 1 ∧
    (process_request m sid req (fun i => if i < k then .error e else .ok resp) t).2.2
      = .ok { content := extract_content resp.content,
              usage := { input_tokens := resp.usage.input_tokens,
                         output_tokens := resp.usage.output_tokens,
                         total_tokens := resp.usage.input_tokens
                           + resp.usage.output_tokens },
              message_count := s.message_history.length + k + 2 } := by
  rcases hk with hk | hk <;> subst hk <;>
    simp [process_request, process_request_attempts, process_request_once, hs,
      dictGet_dictInsert_self, session_messages, AgentSession.add_message,
      AgentSession.update_activity, AgentSession.update_token_usage,
      List.replicate]

/-- Witness for C9: one transient failure then success against session S
gives two user copies, one assistant reply and two attempts. -/
theorem retry_reappends_user_message_witness :
    dictGet mS.sessions "S" = some (AgentSession.init "S" "user-1" none 0) ∧
    ((1 : Nat) = 1 ∨ (1 : Nat) = 2) ∧
    (process_request mS "S" req0
        (fun i => if i < 1 then .error apiErr else .ok respOK) (fun _ => 1)).2.1 = 2 ∧
    session_messages
      (process_request mS "S" req0
        (fun i => if i < 1 then .error apiErr else .ok respOK) (fun _ => 1)).1 "S"
      = some ((AgentSession.init "S" "user-1" none 0).message_history
          ++ List.replicate 2 (ChatMessage.mk "user" req0.prompt)
          ++ [ChatMessage.mk "assistant" (extract_content respOK.content)]) := by
  have h := retry_reappends_user_message mS "S" req0 apiErr respOK (fun _ => 1)
    (AgentSession.init "S" "user-1" none 0) 1 (by decide) (Or.inl rfl)
  exact ⟨by decide, Or.inl rfl, h.2.1, h.1⟩

/-- Claim C6 counterexample: a normally-completing stream over session S
reporting 10 input and 20 output tokens folds the usage into the session
(total 30) but leaves the global stats dict exactly as before — total
tokens and total requests both still 0 — so the final usage is not folded
into the global stats counters. -/
theorem stream_stats_counterexample :
    session_usage (stream_response mS "S" req0
        (.completed ["Hel", "lo!"] { input_tokens := 10, output_tokens := 20 }) 1).1 "S"
      = some { input := 10, output := 20, total := 30 } ∧
    (stream_response mS "S" req0
        (.completed ["Hel", "lo!"] { input_tokens := 10, output_tokens := 20 }) 1).1.stats
      = mS.stats ∧
    mS.stats.total_tokens = 0 ∧
    mS.stats.total_requests = 0 := by
  decide

/-- Claim C6 as amended: a normally-completing stream emits the fragments
in order followed by the terminal sentinel, appends exactly one assistant
message equal to the concatenation of the fragments after the user
message, folds the final usage into the session's usage counters only —
the global stats counters are untouched by stream_response — and the
["Hel","lo!"] fragments concatenate to "Hello!" exactly. -/
theorem stream_success_behaviour (m : AgentManager) (sid : String)
    (req : AgentRequest) (fragments : List String) (u : ProviderUsage)
    (now : Int) (s : AgentSession)
    (hs : dictGet m.sessions sid = some s) :
    (stream_response m sid req (.completed fragments u) now).2
      = .ok ((fragments.map sse_data) ++ [sse_done]) ∧
    session_messages (stream_response m sid req (.completed fragments u) now).1 sid
      = some (s.message_history ++
          [ChatMessage.mk "user" req.prompt,
           ChatMessage.mk "assistant" (concat_fragments fragments)]) ∧
    session_usage (stream_response m sid req (.completed fragments u) now).1 sid
      = some { input := s.token_usage.input + u.input_tokens,
               output := s.token_usage.output + u.output_tokens,
               total := s.token_usage.input + u.input_tokens
                 + (s.token_usage.output + u.output_tokens) } ∧
    (stream_response m sid req (.completed fragments u) now).1.stats = m.stats ∧
    concat_fragments ["Hel", "lo!"] = "Hello!" := by
  refine ⟨?_, ?_, ?_, ?_, by decide⟩ <;>
    simp [stream_response, hs, dictGet_dictInsert_self, session_messages, session_usage,
      AgentSession.add_message, AgentSession.update_activity,
      AgentSession.update_token_usage]

/-- Witness for C6 as amended: the completed ["Hel","lo!"] stream over
session S, its emitted events and the appended "Hello!" reply. -/
theorem stream_success_behaviour_witness :
    dictGet mS.sessions "S" = some (AgentSession.init "S" "user-1" none 0) ∧
    (stream_response mS "S" req0
        (.completed ["Hel", "lo!"] { input_tokens := 10, output_tokens := 20 }) 1).2
      = .ok (((["Hel", "lo!"] : List String).map sse_data) ++ [sse_done]) ∧
    session_messages (stream_response mS "S" req0
        (.completed ["Hel", "lo!"] { input_tokens := 10, output_tokens := 20 }) 1).1 "S"
      = some ((AgentSession.init "S" "user-1" none 0).message_history ++
          [ChatMessage.mk "user" req0.prompt,
           ChatMessage.mk "assistant" (concat_fragments ["Hel", "lo!"])]) ∧
    concat_fragments ["Hel", "lo!"] = "Hello!" := by
  have h := stream_success_behaviour mS "S" req0 ["Hel", "lo!"]
    { input_tokens := 10, output_tokens := 20 } 1
    (AgentSession.init "S" "user-1" none 0) (by decide)
  exact ⟨by decide, h.1, h.2.1, h.2.2.2.2⟩

/-- Claim C7: when the provider fails mid-stream after a prefix of
fragments, the emitted events are exactly those fragments followed by one
structured error event in place of the completion sentinel (no retry, no
further events); the session keeps the eagerly-appended user message with
no assistant message, its usage is unchanged, and the global request and
token counters are unchanged. -/
theorem stream_failure_behaviour (m : AgentManager) (sid : String)
    (req : AgentRequest) (received : List String) (e : ProviderError)
    (now : Int) (s : AgentSession)
    (hs : dictGet m.sessions sid = some s) :
    (stream_response m sid req (.failed received e) now).2
      = .ok ((received.map sse_data) ++ [sse_error e.msg]) ∧
    session_messages (stream_response m sid req (.failed received e) now).1 sid
      = some (s.message_history ++ [ChatMessage.mk "user" req.prompt]) ∧
    session_usage (stream_response m sid req (.failed received e) now).1 sid
      = some s.token_usage ∧
    (stream_response m sid req (.failed received e) now).1.stats.total_requests
      = m.stats.total_requests ∧
    (stream_response m sid req (.failed received e) now).1.stats.total_tokens
      = m.stats.total_tokens := by
  refine ⟨?_, ?_, ?_, ?_, ?_⟩ <;>
    simp [stream_response, hs, dictGet_dictInsert_self, session_messages, session_usage,
      AgentSession.add_message, AgentSession.update_activity]

/-- Witness for C7: a stream over session S failing after the fragment
"He": one error event after the fragment, user message retained, usage
untouched. -/
theorem stream_failure_behaviour_witness :
    dictGet mS.sessions "S" = some (AgentSession.init "S" "user-1" none 0) ∧
    (stream_response mS "S" req0 (.failed ["He"] apiErr) 1).2
      = .ok (((["He"] : List String).map sse_data) ++ [sse_error apiErr.msg]) ∧
    session_messages (stream_response mS "S" req0 (.failed ["He"] apiErr) 1).1 "S"
      = some ((AgentSession.init "S" "user-1" none 0).message_history ++
          [ChatMessage.mk "user" req0.prompt]) ∧
    session_usage (stream_response mS "S" req0 (.failed ["He"] apiErr) 1).1 "S"
      = some (AgentSession.init "S" "user-1" none 0).token_usage := by
  have h := stream_failure_behaviour mS "S" req0 ["He"] apiErr 1
    (AgentSession.init "S" "user-1" none 0) (by decide)
  exact ⟨by decide, h.1, h.2.1, h.2.2.1⟩

/-- Any single attempt of the request body against a present session
leaves that session stored with last_activity equal to the attempt time:
every path of the body that keeps the session appends at least the user
message, and usage folding preserves the timestamp. -/
theorem process_request_once_last_activity (m : AgentManager) (sid : String)
    (req : AgentRequest) (pr : Except ProviderError ProviderResponse) (now : Int)
    (s : AgentSession) (hs : dictGet m.sessions sid = some s) :
    session_last_activity (process_request_once m sid req pr now).1 sid = some now := by
  cases pr <;>
    simp [process_request_once, hs, session_last_activity, dictGet_dictInsert_self,
      AgentSession.add_message, AgentSession.update_activity,
      AgentSession.update_token_usage]

/-- Unfolding equation of the retry loop when the attempt succeeds. -/
theorem process_request_attempts_ok (sid : String) (req : AgentRequest)
    (provider : Nat → Except ProviderError ProviderResponse) (tf : Nat → Int)
    (attempt fuel : Nat) (m : AgentManager) (v : ProcessResult)
    (h : (process_request_once m sid req (provider attempt) (tf attempt)).2 = .ok v) :
    process_request_attempts sid req provider tf attempt (fuel + 1) m
      = ((process_request_once m sid req (provider attempt) (tf attempt)).1,
         attempt + 1, .ok v) := by
  unfold process_request_attempts
  simp only [h]

/-- Unfolding equation of the retry loop when the last allowed attempt
fails: RetryError wrapping the attempt's exception. -/
theorem process_request_attempts_err_stop (sid : String) (req : AgentRequest)
    (provider : Nat → Except ProviderError ProviderResponse) (tf : Nat → Int)
    (attempt : Nat) (m : AgentManager) (e : AgentError)
    (h : (process_request_once m sid req (provider attempt) (tf attempt)).2 = .error e) :
    process_request_attempts sid req provider tf attempt 1 m
      = ((process_request_once m sid req (provider attempt) (tf attempt)).1,
         attempt + 1, .error (.retryError e)) := by
  unfold process_request_attempts
  simp only [h]

/-- Unfolding equation of the retry loop when a non-final attempt fails:
recurse on the state the failed attempt left behind. -/
theorem process_request_attempts_err_cont (sid : String) (req : AgentRequest)
    (provider : Nat → Except ProviderError ProviderResponse) (tf : Nat → Int)
    (attempt f1 : Nat) (m : AgentManager) (e : AgentError)
    (h : (process_request_once m sid req (provider attempt) (tf attempt)).2 = .error e) :
    process_request_attempts sid req provider tf attempt (f1 + 2) m
      = process_request_attempts sid req provider tf (attempt + 1) (f1 + 1)
          (process_request_once m sid req (provider attempt) (tf attempt)).1 := by
  conv_lhs => unfold process_request_attempts
  simp only [h]

/-- Across any number of retry-loop attempts at a constant clock reading,
a session present at the start is still stored afterwards with
last_activity equal to that reading. -/
theorem process_request_attempts_last_activity (sid : String) (req : AgentRequest)
    (provider : Nat → Except ProviderError ProviderResponse) (now : Int) :
    ∀ fuel attempt (m : AgentManager) (s : AgentSession), fuel ≠ 0 →
      dictGet m.sessions sid = some s →
      session_last_activity
        (process_request_attempts sid req provider (fun _ => now) attempt fuel m).1 sid
        = some now := by
  intro fuel
  induction fuel with
  | zero => intro attempt m s h _; exact absurd rfl h
  | succ f ih =>
    intro attempt m s _ hs
    have honce := process_request_once_last_activity m sid req (provider attempt) now s hs
    cases hr : (process_request_once m sid req (provider attempt) now).2 with
    | ok v =>
      rw [process_request_attempts_ok sid req provider (fun _ => now) attempt f m v hr]
      exact honce
    | error e =>
      cases f with
      | zero =>
        rw [process_request_attempts_err_stop sid req provider (fun _ => now) attempt m e hr]
        exact honce
      | succ f1 =>
        rw [process_request_attempts_err_cont sid req provider (fun _ => now) attempt f1 m e hr]
        obtain ⟨s1, hs1, _⟩ := session_last_activity_some _ _ _ honce
        exact ih (attempt + 1) _ s1 (by simp) hs1

/-- Claim C10: every message append sets the session's last_activity to
the append time; a process_request or stream_response against an existing
session — whatever the provider outcome, including failures — leaves the
stored session's last_activity at the call time; and a session whose
last_activity is within the timeout of the reap time is not expired and
survives the reap pass, so no attempt can be followed by a reap for a
full timeout period. -/
theorem activity_reset_on_request (s : AgentSession) (role content : String)
    (now later : Int) (m m2 : AgentManager) (sid : String) (sx : AgentSession)
    (req : AgentRequest) (provider : Nat → Except ProviderError ProviderResponse)
    (outcome : StreamOutcome) :
    (s.add_message role content now).last_activity = now ∧
    (dictGet m.sessions sid = some sx →
      session_last_activity (process_request m sid req provider (fun _ => now)).1 sid
        = some now) ∧
    (dictGet m.sessions sid = some sx →
      session_last_activity (stream_response m sid req outcome now).1 sid = some now) ∧
    (s.last_activity = now → later - now ≤ m2.session_timeout →
      s.is_expired m2.session_timeout later = false) ∧
    ((sid, s) ∈ m2.sessions → s.last_activity = now →
      later - now ≤ m2.session_timeout →
      (sid, s) ∈ (cleanup_expired_sessions_sync m2 later).1.sessions) := by
  refine ⟨rfl, ?_, ?_, ?_, ?_⟩
  · intro hs
    exact process_request_attempts_last_activity sid req provider now 3 0 m sx
      (by simp) hs
  · intro hs
    cases outcome <;>
      simp [stream_response, hs, session_last_activity, dictGet_dictInsert_self,
        AgentSession.add_message, AgentSession.update_activity,
        AgentSession.update_token_usage]
  · intro h1 h2
    simp only [AgentSession.is_expired, decide_eq_false_iff_not, not_lt]
    omega
  · intro hmem h1 h2
    have hsess : (cleanup_expired_sessions_sync m2 later).1.sessions
        = m2.sessions.filter (fun p => !(p.2.is_expired m2.session_timeout later)) := rfl
    rw [hsess]
    refine List.mem_filter.mpr ⟨hmem, ?_⟩
    simp only [AgentSession.is_expired, Bool.not_eq_true', decide_eq_false_iff_not,
      not_lt]
    omega

/-- Witness for C10: a failing request and a failing stream against
session S at time 5 both leave last_activity = 5, and the session created
at time 0 survives a reap at time 100 under the 300 second timeout. -/
theorem activity_reset_on_request_witness :
    ((AgentSession.init "S" "user-1" none 0).add_message "user" "Hello" 5).last_activity
      = 5 ∧
    dictGet mS.sessions "S" = some (AgentSession.init "S" "user-1" none 0) ∧
    session_last_activity
      (process_request mS "S" req0 (fun _ => .error apiErr) (fun _ => 5)).1 "S"
      = some 5 ∧
    session_last_activity
      (stream_response mS "S" req0 (.failed ["He"] apiErr) 5).1 "S" = some 5 ∧
    ("S", AgentSession.init "S" "user-1" none 0)
      ∈ (cleanup_expired_sessions_sync mS 100).1.sessions := by
  have h := activity_reset_on_request (AgentSession.init "S" "user-1" none 0)
    "user" "Hello" 5 10 mS mS "S" (AgentSession.init "S" "user-1" none 0) req0
    (fun _ => .error apiErr) (.failed ["He"] apiErr)
  have h2 := activity_reset_on_request (AgentSession.init "S" "user-1" none 0)
    "user" "Hello" 0 100 mS mS "S" (AgentSession.init "S" "user-1" none 0) req0
    (fun _ => .error apiErr) (.failed ["He"] apiErr)
  exact ⟨h.1, by decide, h.2.1 (by decide), h.2.2.1 (by decide),
    h2.2.2.2.2 (by decide) rfl (by decide)⟩
